import Mathlib

/-!
# Verification of the `MaterialAbs` absorption model of EasyXASCalc

This file gives a shallow embedding of the `MaterialAbs` class that appears in
two variants in the repository:

* `XASCalcCore.abs_calc` / `XASCalcCore.edge_jump_calc` embed the methods of
  `MaterialAbs` in `XASCalc_core.py`;
* `Backend.abs_calc` / `Backend.edge_jump_calc` embed the methods of
  `MaterialAbs` in `backend/core.py` (which adds an empty-composition check in
  `abs_calc` and an empty-window fallback in `edge_jump_calc`).

The constructor (`initModel`) is identical in both files and is embedded once.

The external physics library (`xraylib`) is modelled by a `Provider` record of
partial functions: `symbolToZ` models `SymbolToAtomicNumber` (raising for an
unknown symbol is `none`), `edgeEnergy` models `EdgeEnergy` (in keV), and
`csTotal` models `CS_Total_CP` (raising for an unparseable formula/energy is
`none`).

Numbers are modelled by `ℚ`; Python floats are treated as exact arithmetic.
Exceptions are modelled by `Except`/`Option`.  Where a Python method both
mutates `self` and raises (as `abs_calc` does when the cross-section provider
fails mid-loop), the embedding returns the mutated state together with the
error, mirroring the fact that the Python object keeps its partially updated
attributes.

Display-only state (LaTeX/plain compound name strings, `printlst`) is outside
the scope of the modelled claims and is omitted.
-/

set_option maxRecDepth 10000

/-- One entry of `compounds_info`: a dict with keys `"compound"`,
`"area_density"`, and (after `abs_calc`) `"abs"`. -/
structure CompoundInfo where
  compound : String
  area_density : ℚ
  absArr : Option (List ℚ)
deriving DecidableEq

/-- The external `xraylib` collaborator, as used by `MaterialAbs`. -/
structure Provider where
  symbolToZ : String → Option ℕ
  edgeEnergy : ℕ → ℕ → Option ℚ
  csTotal : String → ℚ → Option ℚ

/-- `xraylib` shell constant for the K edge. -/
def K_SHELL : ℕ := 0

/-- `xraylib` shell constant for the L1 edge. -/
def L1_SHELL : ℕ := 1

/-- `xraylib` shell constant for the L2 edge. -/
def L2_SHELL : ℕ := 2

/-- `xraylib` shell constant for the L3 edge. -/
def L3_SHELL : ℕ := 3

/-- The `edge_map` dictionary of `MaterialAbs.__init__`: maps the edge name to
the `xraylib` shell constant; `none` models "not in the dict". -/
def edgeShell : String → Option ℕ
  | "K" => some K_SHELL
  | "L1" => some L1_SHELL
  | "L2" => some L2_SHELL
  | "L3" => some L3_SHELL
  | _ => none

/-- The observable state of a `MaterialAbs` object.  `energy` is the grid in
keV; `edge_value` is in eV.  Attributes that Python creates only later
(`abs_total`, `abs_max`, `abs_min`, `edge_jump`, `transmitted_percentage`) are
`Option`s, `none` meaning "attribute absent".  `transmitted_base` records the
`abs_total` snapshot from which `transmitted_percentage` was computed (the
Python attribute itself is recovered by `transmitted_percentage` below). -/
structure MaterialAbs where
  compounds_info : List CompoundInfo
  element : String
  edge : String
  edge_value : ℚ
  energy : List ℚ
  abs_total : Option (List ℚ)
  abs_max : Option ℚ
  abs_min : Option ℚ
  edge_jump : Option ℚ
  transmitted_base : Option (List ℚ)
deriving DecidableEq

/-- Errors raised by `MaterialAbs.__init__`:
`unknownElement` models `SymbolToAtomicNumber` raising for an unknown symbol,
`invalidEdge` models the explicit `ValueError` for an edge outside the map,
`edgeEnergyError` models `EdgeEnergy` raising for an unsupported pair. -/
inductive InitError
  | unknownElement
  | invalidEdge
  | edgeEnergyError
deriving DecidableEq

/-- Errors raised by `abs_calc` / `edge_jump_calc`:
`emptyComposition` models the backend's `ValueError("No compounds information
provided")`; `compositionError f` models a `CS_Total_CP` failure for formula
`f` propagating out of the loop; `maskTypeError` models the `TypeError` from
comparing a `None` bound inside `np.ma.masked_outside`; `emptySelectionError`
models `ValueError` from `.max()`/`.min()` on an empty selection;
`notComputed` models the `AttributeError` when `abs_total` is absent. -/
inductive CalcError
  | emptyComposition
  | compositionError (formula : String)
  | maskTypeError
  | emptySelectionError
  | notComputed
deriving DecidableEq

/-- `MaterialAbs.__init__` (identical in `XASCalc_core.py` and
`backend/core.py`): resolve the element, check the edge name, fetch the edge
energy (keV, converted to eV), and build the energy grid
`np.arange(max(100, edge_value - 500), edge_value + 500) / 1000`.
`np.arange(a, b)` with unit step yields `⌈b - a⌉` points `a, a+1, …`. -/
def initModel (p : Provider) (compounds_info : List CompoundInfo)
    (element : String) (edge : String) : Except InitError MaterialAbs :=
  match p.symbolToZ element with
  | none => .error .unknownElement
  | some Z =>
    match edgeShell edge with
    | none => .error .invalidEdge
    | some sh =>
      match p.edgeEnergy Z sh with
      | none => .error .edgeEnergyError
      | some eKeV =>
        let edge_value := eKeV * 1000
        let lo := max 100 (edge_value - 500)
        let n := (Int.ceil (edge_value + 500 - lo)).toNat
        .ok { compounds_info := compounds_info
              element := element
              edge := edge
              edge_value := edge_value
              energy := (List.range n).map (fun i : ℕ => (lo + i) / 1000)
              abs_total := none
              abs_max := none
              abs_min := none
              edge_jump := none
              transmitted_base := none }

/-- The selection `abs_total[~np.ma.masked_outside(energy * 1000, E1, E2).mask]`:
`masked_outside` first swaps the bounds if `E2 < E1`, then keeps exactly the
entries whose energy (in eV) lies in `[v1, v2]` inclusive. -/
def maskSelect (energy abst : List ℚ) (E1 E2 : ℚ) : List ℚ :=
  let v1 := if E2 < E1 then E2 else E1
  let v2 := if E2 < E1 then E1 else E2
  ((energy.zip abst).filter
    (fun q => decide (v1 ≤ q.1 * 1000 ∧ q.1 * 1000 ≤ v2))).map Prod.snd

/-- The mask construction of `edge_jump_calc`, shared by the two variants:
`np.s_[:]` (the whole array) when `E1 is None`, regardless of `E2`; the
masked-outside selection when both bounds are given; a `TypeError` when `E1`
is given but `E2` is `None` (Python compares `None` against a float inside
`masked_outside`). -/
def buildMask (energy abst : List ℚ) (E1 E2 : Option ℚ) :
    Except CalcError (List ℚ) :=
  match E1 with
  | none => .ok abst
  | some e1 =>
    match E2 with
    | none => .error .maskTypeError
    | some e2 => .ok (maskSelect energy abst e1 e2)

/-- The backend's `if np.any(mask)` dispatch: use the masked selection when it
is non-empty, the full `abs_total` otherwise. -/
def chooseSel (abst sel : List ℚ) : List ℚ := if sel.isEmpty then abst else sel

/-- `CS_Total_CP(compound, E) * area_density` evaluated over the whole grid;
the list comprehension fails as soon as one cross-section lookup fails
(yielding `none`, i.e. no `"abs"` array at all for this compound). -/
def computeAbs (p : Provider) (energy : List ℚ) (compound : String)
    (area_density : ℚ) : Option (List ℚ) :=
  match energy with
  | [] => some []
  | E :: rest =>
    match p.csTotal compound E with
    | none => none
    | some c =>
      match computeAbs p rest compound area_density with
      | none => none
      | some arr => some (c * area_density :: arr)

/-- The `for compound_info in self.compounds_info` loop of `abs_calc`:
returns the compounds list as mutated so far (each processed entry gets its
`"abs"` key), the accumulated `abs_total`, and `some formula` if the
cross-section provider failed on `formula` (aborting the loop there). -/
def absLoop (p : Provider) (energy : List ℚ) :
    List CompoundInfo → List ℚ → List CompoundInfo × List ℚ × Option String
  | [], acc => ([], acc, none)
  | c :: rest, acc =>
    match computeAbs p energy c.compound c.area_density with
    | none => (c :: rest, acc, some c.compound)
    | some arr =>
      let r := absLoop p energy rest (List.zipWith (· + ·) acc arr)
      ({ c with absArr := some arr } :: r.1, r.2.1, r.2.2)

/-- The edge-jump window lower bound computed inside `abs_calc`:
`E1 = edge_value - 50; if E1 < 0: E1 = 100`. -/
def absCalcE1 (edge_value : ℚ) : ℚ :=
  if edge_value - 50 < 0 then 100 else edge_value - 50

namespace XASCalcCore

/-- `MaterialAbs.edge_jump_calc` of `XASCalc_core.py`: build the mask, then
take `.max()` and `.min()` of the selection (raising if it is empty), store
`abs_max`, `abs_min`, `edge_jump` and return the jump. -/
def edge_jump_calc (s : MaterialAbs) (E1 E2 : Option ℚ) :
    Except CalcError (MaterialAbs × ℚ) :=
  match s.abs_total with
  | none => .error .notComputed
  | some abst =>
    match buildMask s.energy abst E1 E2 with
    | .error e => .error e
    | .ok sel =>
      match sel.max?, sel.min? with
      | some aMax, some aMin =>
        .ok ({ s with abs_max := some aMax, abs_min := some aMin,
                      edge_jump := some (aMax - aMin) }, aMax - aMin)
      | _, _ => .error .emptySelectionError

/-- `MaterialAbs.abs_calc` of `XASCalc_core.py`: zero the accumulator, run the
contribution loop (any provider failure propagates, leaving the partially
summed `abs_total` in place), then compute the edge-jump summary over
`[absCalcE1 edge_value, edge_value + 50]` and record the transmission
snapshot.  The returned state is the object's state after the call, also when
the call raises. -/
def abs_calc (p : Provider) (s : MaterialAbs) :
    MaterialAbs × Except CalcError (List ℚ) :=
  let z : List ℚ := List.replicate s.energy.length 0
  let r := absLoop p s.energy s.compounds_info z
  let s1 := { s with compounds_info := r.1, abs_total := some r.2.1 }
  match r.2.2 with
  | some f => (s1, .error (.compositionError f))
  | none =>
    match edge_jump_calc s1 (some (absCalcE1 s.edge_value))
        (some (s.edge_value + 50)) with
    | .error e => (s1, .error e)
    | .ok pr => ({ pr.1 with transmitted_base := some r.2.1 }, .ok r.2.1)

end XASCalcCore

namespace Backend

/-- `MaterialAbs.edge_jump_calc` of `backend/core.py`: like the legacy
variant, but `if np.any(mask)` falls back to the full `abs_total` when the
selection is empty (`.max()` still raises if `abs_total` itself is empty). -/
def edge_jump_calc (s : MaterialAbs) (E1 E2 : Option ℚ) :
    Except CalcError (MaterialAbs × ℚ) :=
  match s.abs_total with
  | none => .error .notComputed
  | some abst =>
    match buildMask s.energy abst E1 E2 with
    | .error e => .error e
    | .ok sel =>
      match (chooseSel abst sel).max?, (chooseSel abst sel).min? with
      | some aMax, some aMin =>
        .ok ({ s with abs_max := some aMax, abs_min := some aMin,
                      edge_jump := some (aMax - aMin) }, aMax - aMin)
      | _, _ => .error .emptySelectionError

/-- `MaterialAbs.abs_calc` of `backend/core.py`: zeroes the accumulator, then
raises `ValueError("No compounds information provided")` if `compounds_info`
is empty, and otherwise proceeds exactly like the legacy variant (the
`try/except` around the cross-section call re-raises the same exception). -/
def abs_calc (p : Provider) (s : MaterialAbs) :
    MaterialAbs × Except CalcError (List ℚ) :=
  let z : List ℚ := List.replicate s.energy.length 0
  if s.compounds_info.isEmpty then
    ({ s with abs_total := some z }, .error .emptyComposition)
  else
    let r := absLoop p s.energy s.compounds_info z
    let s1 := { s with compounds_info := r.1, abs_total := some r.2.1 }
    match r.2.2 with
    | some f => (s1, .error (.compositionError f))
    | none =>
      match edge_jump_calc s1 (some (absCalcE1 s.edge_value))
          (some (s.edge_value + 50)) with
      | .error e => (s1, .error e)
      | .ok pr => ({ pr.1 with transmitted_base := some r.2.1 }, .ok r.2.1)

end Backend

/-- `self.transmitted_percentage = np.exp(-self.abs_total) * 100`, read back
from the `abs_total` snapshot taken when the attribute was written. -/
noncomputable def transmitted_percentage (s : MaterialAbs) : Option (List ℝ) :=
  s.transmitted_base.map (fun l => l.map (fun x : ℚ => Real.exp (-(x : ℝ)) * 100))

/-- The part of a `compounds_info` entry that `abs_calc` reads (it only writes
the `"abs"` key). -/
def compoundKey (c : CompoundInfo) : String × ℚ := (c.compound, c.area_density)

/-! ## Concrete providers and states used as test inputs -/

/-- A provider that knows Fe (Z = 26) with a K edge at 7.112 keV and returns
cross-section 1 for every formula. -/
def pFe : Provider :=
  { symbolToZ := fun sym => if sym = "Fe" then some 26 else none
    edgeEnergy := fun Z sh => if Z = 26 ∧ sh = K_SHELL then some (7112 / 1000) else none
    csTotal := fun _ _ => some 1 }

/-- The model `MaterialAbs([], "Fe", "K")` built from `pFe`: Fe K edge at
7112 eV, grid of 1000 points from 6612 eV to 7611 eV (in keV), and an empty
composition. -/
def mFe : MaterialAbs :=
  { compounds_info := [], element := "Fe", edge := "K", edge_value := 7112,
    energy := (List.range 1000).map (fun i : ℕ => ((6612 : ℚ) + i) / 1000),
    abs_total := none, abs_max := none, abs_min := none,
    edge_jump := none, transmitted_base := none }

/-- A provider whose cross-section lookup fails exactly for formula `"Bq"`. -/
def pBq : Provider :=
  { symbolToZ := fun sym => if sym = "Fe" then some 26 else none
    edgeEnergy := fun Z sh => if Z = 26 ∧ sh = K_SHELL then some (7112 / 1000) else none
    csTotal := fun f _ => if f = "Bq" then none else some 2 }

/-- A small model with an empty composition, a one-point grid at 100 eV and a
150 eV edge. -/
def stEmpty : MaterialAbs :=
  { compounds_info := [], element := "A", edge := "K", edge_value := 150,
    energy := [1 / 10], abs_total := none, abs_max := none, abs_min := none,
    edge_jump := none, transmitted_base := none }

/-- A small model with one contribution. -/
def stOne : MaterialAbs :=
  { compounds_info := [{ compound := "A", area_density := 1, absArr := none }],
    element := "A", edge := "K", edge_value := 150,
    energy := [1 / 10], abs_total := none, abs_max := none, abs_min := none,
    edge_jump := none, transmitted_base := none }

/-- A small model with two contributions, the second of which (`"Bq"`) makes
`pBq`'s cross-section lookup fail. -/
def stTwo : MaterialAbs :=
  { compounds_info := [{ compound := "A", area_density := 1, absArr := none },
                       { compound := "Bq", area_density := 2, absArr := none }],
    element := "A", edge := "K", edge_value := 150,
    energy := [1 / 10], abs_total := none, abs_max := none, abs_min := none,
    edge_jump := none, transmitted_base := none }

/-- A small model whose `abs_total` is already populated. -/
def stPop : MaterialAbs :=
  { compounds_info := [{ compound := "A", area_density := 1, absArr := none }],
    element := "A", edge := "K", edge_value := 150,
    energy := [1 / 10], abs_total := some [5], abs_max := none, abs_min := none,
    edge_jump := none, transmitted_base := none }

/-! ## General lemmas -/

theorem min?_le_max?_of_eq {l : List ℚ} {a b : ℚ}
    (ha : l.max? = some a) (hb : l.min? = some b) : b ≤ a := by
  have hmem : a ∈ l := List.max?_mem (fun x y => max_choice x y) ha
  have hall : ∀ c ∈ l, b ≤ c :=
    (List.le_min?_iff (fun x y z => le_min_iff) hb).1 le_rfl
  exact hall a hmem

theorem core_edge_jump_calc_spec {s s' : MaterialAbs} {E1 E2 : Option ℚ}
    {j : ℚ} (h : XASCalcCore.edge_jump_calc s E1 E2 = .ok (s', j)) :
    ∃ abst sel aMax aMin,
      s.abs_total = some abst ∧
      buildMask s.energy abst E1 E2 = .ok sel ∧
      sel.max? = some aMax ∧ sel.min? = some aMin ∧
      s' = { s with abs_max := some aMax, abs_min := some aMin,
                    edge_jump := some (aMax - aMin) } ∧
      j = aMax - aMin := by
  unfold XASCalcCore.edge_jump_calc at h
  cases hA : s.abs_total with
  | none => simp [hA] at h
  | some abst =>
    simp only [hA] at h
    cases hSel : buildMask s.energy abst E1 E2 with
    | error e => simp [hSel] at h
    | ok sel =>
      simp only [hSel] at h
      cases hMax : sel.max? with
      | none => simp [hMax] at h
      | some aMax =>
        cases hMin : sel.min? with
        | none => simp [hMax, hMin] at h
        | some aMin =>
          simp only [hMax, hMin] at h
          simp only [Except.ok.injEq, Prod.mk.injEq] at h
          exact ⟨abst, sel, aMax, aMin, rfl, hSel, hMax, hMin, h.1.symm, h.2.symm⟩

theorem backend_edge_jump_calc_spec {s s' : MaterialAbs} {E1 E2 : Option ℚ}
    {j : ℚ} (h : Backend.edge_jump_calc s E1 E2 = .ok (s', j)) :
    ∃ abst sel aMax aMin,
      s.abs_total = some abst ∧
      buildMask s.energy abst E1 E2 = .ok sel ∧
      (chooseSel abst sel).max? = some aMax ∧
      (chooseSel abst sel).min? = some aMin ∧
      s' = { s with abs_max := some aMax, abs_min := some aMin,
                    edge_jump := some (aMax - aMin) } ∧
      j = aMax - aMin := by
  unfold Backend.edge_jump_calc at h
  cases hA : s.abs_total with
  | none => simp [hA] at h
  | some abst =>
    simp only [hA] at h
    cases hSel : buildMask s.energy abst E1 E2 with
    | error e => simp [hSel] at h
    | ok sel =>
      simp only [hSel] at h
      cases hMax : (chooseSel abst sel).max? with
      | none => simp [hMax] at h
      | some aMax =>
        cases hMin : (chooseSel abst sel).min? with
        | none => simp [hMax, hMin] at h
        | some aMin =>
          simp only [hMax, hMin] at h
          simp only [Except.ok.injEq, Prod.mk.injEq] at h
          exact ⟨abst, sel, aMax, aMin, rfl, hSel, hMax, hMin, h.1.symm, h.2.symm⟩

theorem core_abs_calc_ok_spec {p : Provider} {s : MaterialAbs}
    {t : List ℚ} (h : (XASCalcCore.abs_calc p s).2 = .ok t) :
    t = (absLoop p s.energy s.compounds_info
          (List.replicate s.energy.length 0)).2.1 ∧
    (absLoop p s.energy s.compounds_info
          (List.replicate s.energy.length 0)).2.2 = none ∧
    ∃ s2 j, XASCalcCore.edge_jump_calc
        { s with
            compounds_info := (absLoop p s.energy s.compounds_info (List.replicate s.energy.length 0)).1
            abs_total := some (absLoop p s.energy s.compounds_info (List.replicate s.energy.length 0)).2.1 }
        (some (absCalcE1 s.edge_value)) (some (s.edge_value + 50)) =
          .ok (s2, j) ∧
      XASCalcCore.abs_calc p s = ({ s2 with transmitted_base := some t }, .ok t) := by
  unfold XASCalcCore.abs_calc at h
  dsimp only [] at h
  split at h
  · simp at h
  · split at h
    · simp at h
    · rename_i xa hnone xb pr hj
      have ht : (absLoop p s.energy s.compounds_info
          (List.replicate s.energy.length 0)).2.1 = t := by
        simpa using h
      refine ⟨ht.symm, hnone, pr.1, pr.2, ?_, ?_⟩
      · rw [hj]
      · unfold XASCalcCore.abs_calc
        dsimp only []
        rw [hnone, hj, ht]

theorem backend_abs_calc_ok_spec {p : Provider} {s : MaterialAbs}
    {t : List ℚ} (h : (Backend.abs_calc p s).2 = .ok t) :
    s.compounds_info.isEmpty = false ∧
    t = (absLoop p s.energy s.compounds_info
          (List.replicate s.energy.length 0)).2.1 ∧
    (absLoop p s.energy s.compounds_info
          (List.replicate s.energy.length 0)).2.2 = none ∧
    ∃ s2 j, Backend.edge_jump_calc
        { s with
            compounds_info := (absLoop p s.energy s.compounds_info (List.replicate s.energy.length 0)).1
            abs_total := some (absLoop p s.energy s.compounds_info (List.replicate s.energy.length 0)).2.1 }
        (some (absCalcE1 s.edge_value)) (some (s.edge_value + 50)) =
          .ok (s2, j) ∧
      Backend.abs_calc p s = ({ s2 with transmitted_base := some t }, .ok t) := by
  cases hE : s.compounds_info.isEmpty with
  | true => unfold Backend.abs_calc at h; simp [hE] at h
  | false =>
    unfold Backend.abs_calc at h
    simp only [hE, Bool.false_eq_true, if_false] at h
    split at h
    · simp at h
    · split at h
      · simp at h
      · rename_i xa hnone xb pr hj
        have ht : (absLoop p s.energy s.compounds_info
            (List.replicate s.energy.length 0)).2.1 = t := by
          simpa using h
        refine ⟨rfl, ht.symm, hnone, pr.1, pr.2, ?_, ?_⟩
        · rw [hj]
        · unfold Backend.abs_calc
          simp only [hE, Bool.false_eq_true, if_false]
          rw [hnone, hj, ht]

/-- C9: at construction, element resolution (`SymbolToAtomicNumber`) runs
before the edge-kind check, so an unknown element always fails with the
unknown-element error regardless of the edge string, and the invalid-edge
error can only arise when the element resolved. -/
theorem C9_element_before_edge (p : Provider) (cs : List CompoundInfo)
    (el ed : String) :
    (p.symbolToZ el = none → initModel p cs el ed = .error .unknownElement) ∧
    (initModel p cs el ed = .error .invalidEdge →
      (∃ Z, p.symbolToZ el = some Z) ∧ edgeShell ed = none) := by
  constructor
  · intro h
    unfold initModel
    simp [h]
  · intro h
    unfold initModel at h
    cases hZ : p.symbolToZ el with
    | none => simp [hZ] at h
    | some Z =>
      simp only [hZ] at h
      cases hE : edgeShell ed with
      | none => exact ⟨⟨Z, rfl⟩, rfl⟩
      | some sh =>
        simp only [hE] at h
        cases hEE : p.edgeEnergy Z sh with
        | none => simp [hEE] at h
        | some e => simp [hEE] at h

/-- Witness for C9 at a concrete input: `"Xx"` is unknown to the provider and
`"L4"` is an invalid edge, and construction fails with the unknown-element
error. -/
theorem C9_element_before_edge_witness :
    pFe.symbolToZ "Xx" = none ∧
    initModel pFe [] "Xx" "L4" = .error .unknownElement := by
  have h := (C9_element_before_edge pFe [] "Xx" "L4").1
  exact ⟨rfl, h rfl⟩

/-- C10: in `edge_jump_calc` the full-grid window is selected exactly when
`E1` is omitted (then `E2` is ignored entirely), while passing `E1` without
`E2` fails when the mask is built (`masked_outside` compares the missing
bound); this holds in both variants. -/
theorem C10_E1_drives_mask (s : MaterialAbs) (abst : List ℚ) (E2 : Option ℚ)
    (e1 : ℚ) (hA : s.abs_total = some abst) :
    (abst ≠ [] →
      ∃ aMax aMin, abst.max? = some aMax ∧ abst.min? = some aMin ∧
        XASCalcCore.edge_jump_calc s none E2 =
          .ok ({ s with abs_max := some aMax, abs_min := some aMin,
                        edge_jump := some (aMax - aMin) }, aMax - aMin) ∧
        Backend.edge_jump_calc s none E2 =
          .ok ({ s with abs_max := some aMax, abs_min := some aMin,
                        edge_jump := some (aMax - aMin) }, aMax - aMin)) ∧
    (XASCalcCore.edge_jump_calc s (some e1) none = .error .maskTypeError ∧
     Backend.edge_jump_calc s (some e1) none = .error .maskTypeError) := by
  refine ⟨?_, ?_, ?_⟩
  · intro hne
    cases hMax : abst.max? with
    | none => exact absurd (List.max?_eq_none_iff.1 hMax) hne
    | some aMax =>
      cases hMin : abst.min? with
      | none => exact absurd (List.min?_eq_none_iff.1 hMin) hne
      | some aMin =>
        refine ⟨aMax, aMin, rfl, rfl, ?_, ?_⟩
        · unfold XASCalcCore.edge_jump_calc buildMask
          simp [hA, hMax, hMin]
        · unfold Backend.edge_jump_calc buildMask
          have hch : chooseSel abst abst = abst := by
            unfold chooseSel; exact ite_self abst
          simp [hA, hch, hMax, hMin]
  · unfold XASCalcCore.edge_jump_calc buildMask
    simp [hA]
  · unfold Backend.edge_jump_calc buildMask
    simp [hA]

/-- Witness for C10 at a concrete populated model: omitting `E2` while
passing `E1` fails with the mask `TypeError` in both variants. -/
theorem C10_E1_drives_mask_witness :
    XASCalcCore.edge_jump_calc stPop (some 1) none = .error .maskTypeError ∧
    Backend.edge_jump_calc stPop (some 1) none = .error .maskTypeError :=
  (C10_E1_drives_mask stPop [5] none 1 rfl).2

/-- C7: after every successful `edge_jump_calc` (either variant, any bounds)
and after every successful `abs_calc`, the stored `abs_max`/`abs_min` are the
`max?`/`min?` of one and the same selected window, `edge_jump` equals
`abs_max - abs_min`, and this difference is non-negative. -/
theorem C7_jump_eq_max_sub_min (p : Provider) (s s' : MaterialAbs)
    (E1 E2 : Option ℚ) (j : ℚ) (t : List ℚ) :
    (XASCalcCore.edge_jump_calc s E1 E2 = .ok (s', j) →
      ∃ (sel : List ℚ) (aMax aMin : ℚ),
        sel.max? = some aMax ∧ sel.min? = some aMin ∧
        s'.abs_max = some aMax ∧ s'.abs_min = some aMin ∧
        s'.edge_jump = some (aMax - aMin) ∧ j = aMax - aMin ∧ 0 ≤ j) ∧
    (Backend.edge_jump_calc s E1 E2 = .ok (s', j) →
      ∃ (sel : List ℚ) (aMax aMin : ℚ),
        sel.max? = some aMax ∧ sel.min? = some aMin ∧
        s'.abs_max = some aMax ∧ s'.abs_min = some aMin ∧
        s'.edge_jump = some (aMax - aMin) ∧ j = aMax - aMin ∧ 0 ≤ j) ∧
    ((XASCalcCore.abs_calc p s).2 = .ok t →
      ∃ aMax aMin, (XASCalcCore.abs_calc p s).1.abs_max = some aMax ∧
        (XASCalcCore.abs_calc p s).1.abs_min = some aMin ∧
        (XASCalcCore.abs_calc p s).1.edge_jump = some (aMax - aMin) ∧
        aMin ≤ aMax ∧ 0 ≤ aMax - aMin) ∧
    ((Backend.abs_calc p s).2 = .ok t →
      ∃ aMax aMin, (Backend.abs_calc p s).1.abs_max = some aMax ∧
        (Backend.abs_calc p s).1.abs_min = some aMin ∧
        (Backend.abs_calc p s).1.edge_jump = some (aMax - aMin) ∧
        aMin ≤ aMax ∧ 0 ≤ aMax - aMin) := by
  refine ⟨?_, ?_, ?_, ?_⟩
  · intro h
    obtain ⟨abst, sel, aMax, aMin, hA, hSel, hMax, hMin, hs', hjj⟩ :=
      core_edge_jump_calc_spec h
    subst hs'
    subst hjj
    exact ⟨sel, aMax, aMin, hMax, hMin, rfl, rfl, rfl, rfl,
      sub_nonneg.mpr (min?_le_max?_of_eq hMax hMin)⟩
  · intro h
    obtain ⟨abst, sel, aMax, aMin, hA, hSel, hMax, hMin, hs', hjj⟩ :=
      backend_edge_jump_calc_spec h
    subst hs'
    subst hjj
    exact ⟨chooseSel abst sel, aMax, aMin, hMax, hMin, rfl, rfl, rfl, rfl,
      sub_nonneg.mpr (min?_le_max?_of_eq hMax hMin)⟩
  · intro h
    obtain ⟨ht, hr, s2, j2, hj, heq⟩ := core_abs_calc_ok_spec h
    obtain ⟨abst, sel, aMax, aMin, hA, hSel, hMax, hMin, hs2, hjj⟩ :=
      core_edge_jump_calc_spec hj
    rw [heq]
    subst hs2
    exact ⟨aMax, aMin, rfl, rfl, rfl, min?_le_max?_of_eq hMax hMin,
      sub_nonneg.mpr (min?_le_max?_of_eq hMax hMin)⟩
  · intro h
    obtain ⟨hE, ht, hr, s2, j2, hj, heq⟩ := backend_abs_calc_ok_spec h
    obtain ⟨abst, sel, aMax, aMin, hA, hSel, hMax, hMin, hs2, hjj⟩ :=
      backend_edge_jump_calc_spec hj
    rw [heq]
    subst hs2
    exact ⟨aMax, aMin, rfl, rfl, rfl, min?_le_max?_of_eq hMax hMin,
      sub_nonneg.mpr (min?_le_max?_of_eq hMax hMin)⟩

/-- Witness for C7 at a concrete populated model: the full-grid
`edge_jump_calc` succeeds and the theorem yields the summary invariant. -/
theorem C7_jump_eq_max_sub_min_witness :
    XASCalcCore.edge_jump_calc stPop none none =
      .ok ({ stPop with abs_max := some 5, abs_min := some 5,
                        edge_jump := some (5 - 5) }, 5 - 5) ∧
    ∃ (sel : List ℚ) (aMax aMin : ℚ),
      sel.max? = some aMax ∧ sel.min? = some aMin ∧
      ({ stPop with abs_max := some 5, abs_min := some 5,
                    edge_jump := some (5 - 5) } : MaterialAbs).abs_max = some aMax ∧
      ({ stPop with abs_max := some 5, abs_min := some 5,
                    edge_jump := some (5 - 5) } : MaterialAbs).abs_min = some aMin ∧
      ({ stPop with abs_max := some 5, abs_min := some 5,
                    edge_jump := some (5 - 5) } : MaterialAbs).edge_jump = some (aMax - aMin) ∧
      (5 - 5 : ℚ) = aMax - aMin ∧ 0 ≤ (5 - 5 : ℚ) := by
  have hok : XASCalcCore.edge_jump_calc stPop none none =
      .ok ({ stPop with abs_max := some 5, abs_min := some 5,
                        edge_jump := some (5 - 5) }, 5 - 5) := by
    unfold XASCalcCore.edge_jump_calc buildMask stPop
    simp
  exact ⟨hok,
    (C7_jump_eq_max_sub_min pFe stPop _ none none (5 - 5) []).1 hok⟩

/-- C4: after every successful `abs_calc` (either variant), the transmitted
percentage attribute exists, has the same length as `total_absorption`, and
equals `exp(-total_absorption[i]) * 100` at every grid index. -/
theorem C4_transmission (p : Provider) (s : MaterialAbs) (t : List ℚ) :
    ((XASCalcCore.abs_calc p s).2 = .ok t →
      (XASCalcCore.abs_calc p s).1.abs_total = some t ∧
      ∃ tr : List ℝ,
        transmitted_percentage (XASCalcCore.abs_calc p s).1 = some tr ∧
        tr.length = t.length ∧
        ∀ i (hi : i < tr.length) (hj : i < t.length),
          tr.get ⟨i, hi⟩ = Real.exp (-((t.get ⟨i, hj⟩ : ℚ) : ℝ)) * 100) ∧
    ((Backend.abs_calc p s).2 = .ok t →
      (Backend.abs_calc p s).1.abs_total = some t ∧
      ∃ tr : List ℝ,
        transmitted_percentage (Backend.abs_calc p s).1 = some tr ∧
        tr.length = t.length ∧
        ∀ i (hi : i < tr.length) (hj : i < t.length),
          tr.get ⟨i, hi⟩ = Real.exp (-((t.get ⟨i, hj⟩ : ℚ) : ℝ)) * 100) := by
  constructor
  · intro h
    obtain ⟨ht, hr, s2, j2, hj, heq⟩ := core_abs_calc_ok_spec h
    obtain ⟨abst, sel, aMax, aMin, hA, hSel, hMax, hMin, hs2, hjj⟩ :=
      core_edge_jump_calc_spec hj
    rw [heq]
    constructor
    · subst hs2
      dsimp
      rw [ht]
    · refine ⟨t.map (fun x : ℚ => Real.exp (-(x : ℝ)) * 100), rfl, by simp, ?_⟩
      intro i hi hj2
      simp [List.get_eq_getElem, List.getElem_map]
  · intro h
    obtain ⟨hE, ht, hr, s2, j2, hj, heq⟩ := backend_abs_calc_ok_spec h
    obtain ⟨abst, sel, aMax, aMin, hA, hSel, hMax, hMin, hs2, hjj⟩ :=
      backend_edge_jump_calc_spec hj
    rw [heq]
    constructor
    · subst hs2
      dsimp
      rw [ht]
    · refine ⟨t.map (fun x : ℚ => Real.exp (-(x : ℝ)) * 100), rfl, by simp, ?_⟩
      intro i hi hj2
      simp [List.get_eq_getElem, List.getElem_map]

/-- Witness for C4: on a concrete one-compound model the backend compute step
succeeds with `total_absorption = [2]`, and the theorem yields the populated
`abs_total`. -/
theorem C4_transmission_witness :
    (Backend.abs_calc pBq stOne).2 = .ok [2] ∧
    (Backend.abs_calc pBq stOne).1.abs_total = some [2] := by
  have hca : pBq.csTotal "A" ((1 : ℚ) / 10) = some 2 := by simp [pBq]
  have hloop : absLoop pBq [(1 : ℚ) / 10]
      [{ compound := "A", area_density := 1, absArr := none }] [0] =
      ([{ compound := "A", area_density := 1, absArr := some [2] }], [2], none) := by
    norm_num [absLoop, computeAbs, hca]
  have hmask : maskSelect [(1 : ℚ) / 10] [2] 100 200 = [2] := by
    norm_num [maskSelect, List.filter_cons]
  have h : (Backend.abs_calc pBq stOne).2 = .ok [2] := by
    unfold Backend.abs_calc
    norm_num [stOne, List.replicate_one, hloop, Backend.edge_jump_calc, buildMask,
      absCalcE1, hmask, chooseSel]
  exact ⟨h, ((C4_transmission pBq stOne [2]).2 h).1⟩

theorem absLoop_congr (p : Provider) (en : List ℚ) :
    ∀ (cs cs' : List CompoundInfo) (acc : List ℚ),
      cs.map compoundKey = cs'.map compoundKey →
      (absLoop p en cs acc).2 = (absLoop p en cs' acc).2 := by
  intro cs
  induction cs with
  | nil =>
    intro cs' acc h
    cases cs' with
    | nil => rfl
    | cons c' rest' => simp at h
  | cons c cs ih =>
    intro cs' acc h
    cases cs' with
    | nil => simp at h
    | cons c' rest' =>
      simp only [List.map_cons, List.cons.injEq] at h
      obtain ⟨hk, hrest⟩ := h
      have hcomp : c.compound = c'.compound := congrArg Prod.fst hk
      have hden : c.area_density = c'.area_density := congrArg Prod.snd hk
      unfold absLoop
      rw [hcomp, hden]
      cases hca : computeAbs p en c'.compound c'.area_density with
      | none => simp [hcomp]
      | some arr =>
        dsimp only []
        exact ih rest' (List.zipWith (· + ·) acc arr) hrest

theorem absLoop_keys (p : Provider) (en : List ℚ) :
    ∀ (cs : List CompoundInfo) (acc : List ℚ),
      ((absLoop p en cs acc).1).map compoundKey = cs.map compoundKey := by
  intro cs
  induction cs with
  | nil => intro acc; rfl
  | cons c cs ih =>
    intro acc
    unfold absLoop
    cases hca : computeAbs p en c.compound c.area_density with
    | none => rfl
    | some arr =>
      dsimp only []
      simp only [List.map_cons, ih]
      rfl

theorem core_edge_jump_calc_ok_congr (sA sB : MaterialAbs)
    (hen : sA.energy = sB.energy) (hab : sA.abs_total = sB.abs_total)
    {E1 E2 : Option ℚ} {s' : MaterialAbs} {j : ℚ}
    (h : XASCalcCore.edge_jump_calc sA E1 E2 = .ok (s', j)) :
    ∃ s'', XASCalcCore.edge_jump_calc sB E1 E2 = .ok (s'', j) := by
  obtain ⟨abst, sel, aMax, aMin, hA, hSel, hMax, hMin, hs', hjj⟩ :=
    core_edge_jump_calc_spec h
  refine ⟨{ sB with abs_max := some aMax, abs_min := some aMin, edge_jump := some (aMax - aMin) }, ?_⟩
  have hab2 : sB.abs_total = some abst := by rw [← hab]; exact hA
  have hsel2 : buildMask sB.energy abst E1 E2 = Except.ok sel := by
    rw [← hen]; exact hSel
  unfold XASCalcCore.edge_jump_calc
  simp only [hab2, hsel2, hMax, hMin, hjj]

theorem backend_edge_jump_calc_ok_congr (sA sB : MaterialAbs)
    (hen : sA.energy = sB.energy) (hab : sA.abs_total = sB.abs_total)
    {E1 E2 : Option ℚ} {s' : MaterialAbs} {j : ℚ}
    (h : Backend.edge_jump_calc sA E1 E2 = .ok (s', j)) :
    ∃ s'', Backend.edge_jump_calc sB E1 E2 = .ok (s'', j) := by
  obtain ⟨abst, sel, aMax, aMin, hA, hSel, hMax, hMin, hs', hjj⟩ :=
    backend_edge_jump_calc_spec h
  refine ⟨{ sB with abs_max := some aMax, abs_min := some aMin, edge_jump := some (aMax - aMin) }, ?_⟩
  have hab2 : sB.abs_total = some abst := by rw [← hab]; exact hA
  have hsel2 : buildMask sB.energy abst E1 E2 = Except.ok sel := by
    rw [← hen]; exact hSel
  unfold Backend.edge_jump_calc
  simp only [hab2, hsel2, hMax, hMin, hjj]

theorem core_abs_calc_congr {sA sB : MaterialAbs} (p : Provider)
    (hen : sA.energy = sB.energy) (hev : sA.edge_value = sB.edge_value)
    (hkeys : sA.compounds_info.map compoundKey = sB.compounds_info.map compoundKey)
    {t : List ℚ} (h : (XASCalcCore.abs_calc p sA).2 = .ok t) :
    (XASCalcCore.abs_calc p sB).2 = .ok t := by
  obtain ⟨ht, hr, s2, j2, hj, heq⟩ := core_abs_calc_ok_spec h
  have hcong : (absLoop p sB.energy sB.compounds_info
      (List.replicate sB.energy.length 0)).2 =
      (absLoop p sA.energy sA.compounds_info
      (List.replicate sA.energy.length 0)).2 := by
    rw [← hen]
    exact absLoop_congr p sA.energy sB.compounds_info sA.compounds_info
      (List.replicate sA.energy.length 0) hkeys.symm
  have h22 : (absLoop p sB.energy sB.compounds_info
      (List.replicate sB.energy.length 0)).2.2 = none := by rw [hcong]; exact hr
  have h21 : (absLoop p sB.energy sB.compounds_info
      (List.replicate sB.energy.length 0)).2.1 = t := by rw [hcong]; exact ht.symm
  obtain ⟨s'', hok⟩ := core_edge_jump_calc_ok_congr
    { sA with
        compounds_info := (absLoop p sA.energy sA.compounds_info (List.replicate sA.energy.length 0)).1
        abs_total := some (absLoop p sA.energy sA.compounds_info (List.replicate sA.energy.length 0)).2.1 }
    { sB with
        compounds_info := (absLoop p sB.energy sB.compounds_info (List.replicate sB.energy.length 0)).1
        abs_total := some (absLoop p sB.energy sB.compounds_info (List.replicate sB.energy.length 0)).2.1 }
    hen (by dsimp only []; rw [h21, ht]) hj
  rw [hev] at hok
  unfold XASCalcCore.abs_calc
  dsimp only []
  simp only [h22]
  simp only [hok]
  rw [h21]

theorem backend_abs_calc_congr {sA sB : MaterialAbs} (p : Provider)
    (hen : sA.energy = sB.energy) (hev : sA.edge_value = sB.edge_value)
    (hkeys : sA.compounds_info.map compoundKey = sB.compounds_info.map compoundKey)
    {t : List ℚ} (h : (Backend.abs_calc p sA).2 = .ok t) :
    (Backend.abs_calc p sB).2 = .ok t := by
  obtain ⟨hE, ht, hr, s2, j2, hj, heq⟩ := backend_abs_calc_ok_spec h
  have hEB : sB.compounds_info.isEmpty = false := by
    cases hL : sB.compounds_info with
    | nil =>
      rw [hL] at hkeys
      simp only [List.map_nil, List.map_eq_nil_iff] at hkeys
      rw [hkeys] at hE
      simp at hE
    | cons a l => rfl
  have hcong : (absLoop p sB.energy sB.compounds_info
      (List.replicate sB.energy.length 0)).2 =
      (absLoop p sA.energy sA.compounds_info
      (List.replicate sA.energy.length 0)).2 := by
    rw [← hen]
    exact absLoop_congr p sA.energy sB.compounds_info sA.compounds_info
      (List.replicate sA.energy.length 0) hkeys.symm
  have h22 : (absLoop p sB.energy sB.compounds_info
      (List.replicate sB.energy.length 0)).2.2 = none := by rw [hcong]; exact hr
  have h21 : (absLoop p sB.energy sB.compounds_info
      (List.replicate sB.energy.length 0)).2.1 = t := by rw [hcong]; exact ht.symm
  obtain ⟨s'', hok⟩ := backend_edge_jump_calc_ok_congr
    { sA with
        compounds_info := (absLoop p sA.energy sA.compounds_info (List.replicate sA.energy.length 0)).1
        abs_total := some (absLoop p sA.energy sA.compounds_info (List.replicate sA.energy.length 0)).2.1 }
    { sB with
        compounds_info := (absLoop p sB.energy sB.compounds_info (List.replicate sB.energy.length 0)).1
        abs_total := some (absLoop p sB.energy sB.compounds_info (List.replicate sB.energy.length 0)).2.1 }
    hen (by dsimp only []; rw [h21, ht]) hj
  rw [hev] at hok
  unfold Backend.abs_calc
  simp only [hEB, Bool.false_eq_true, if_false]
  simp only [h22]
  simp only [hok]
  rw [h21]

theorem core_abs_calc_state_key {p : Provider} {s : MaterialAbs}
    {t : List ℚ} (h : (XASCalcCore.abs_calc p s).2 = .ok t) :
    s.energy = ((XASCalcCore.abs_calc p s).1).energy ∧
    s.edge_value = ((XASCalcCore.abs_calc p s).1).edge_value ∧
    s.compounds_info.map compoundKey =
      ((XASCalcCore.abs_calc p s).1).compounds_info.map compoundKey := by
  obtain ⟨ht, hr, s2, j2, hj, heq⟩ := core_abs_calc_ok_spec h
  obtain ⟨abst, sel, aMax, aMin, hA, hSel, hMax, hMin, hs2, hjj⟩ :=
    core_edge_jump_calc_spec hj
  rw [heq]
  subst hs2
  exact ⟨rfl, rfl,
    (absLoop_keys p s.energy s.compounds_info
      (List.replicate s.energy.length 0)).symm⟩

theorem backend_abs_calc_state_key {p : Provider} {s : MaterialAbs}
    {t : List ℚ} (h : (Backend.abs_calc p s).2 = .ok t) :
    s.energy = ((Backend.abs_calc p s).1).energy ∧
    s.edge_value = ((Backend.abs_calc p s).1).edge_value ∧
    s.compounds_info.map compoundKey =
      ((Backend.abs_calc p s).1).compounds_info.map compoundKey := by
  obtain ⟨hE, ht, hr, s2, j2, hj, heq⟩ := backend_abs_calc_ok_spec h
  obtain ⟨abst, sel, aMax, aMin, hA, hSel, hMax, hMin, hs2, hjj⟩ :=
    backend_edge_jump_calc_spec hj
  rw [heq]
  subst hs2
  exact ⟨rfl, rfl,
    (absLoop_keys p s.energy s.compounds_info
      (List.replicate s.energy.length 0)).symm⟩

/-- C8: `abs_calc` is idempotent — re-running it on the state left by a
successful run (same provider, unchanged compound/area-density data) yields
the identical `total_absorption`; holds for both variants.  The accumulator is
re-zeroed and each contribution's `"abs"` entry is overwritten, so the second
run reads exactly the same inputs. -/
theorem C8_idempotent (p : Provider) (s : MaterialAbs) (t : List ℚ) :
    ((XASCalcCore.abs_calc p s).2 = .ok t →
      (XASCalcCore.abs_calc p ((XASCalcCore.abs_calc p s).1)).2 = .ok t) ∧
    ((Backend.abs_calc p s).2 = .ok t →
      (Backend.abs_calc p ((Backend.abs_calc p s).1)).2 = .ok t) := by
  constructor
  · intro h
    obtain ⟨hen, hev, hkeys⟩ := core_abs_calc_state_key h
    exact core_abs_calc_congr p hen hev hkeys h
  · intro h
    obtain ⟨hen, hev, hkeys⟩ := backend_abs_calc_state_key h
    exact backend_abs_calc_congr p hen hev hkeys h

/-- Witness for C8: on the concrete one-compound model, the second backend
compute run returns the same `total_absorption` `[2]` as the first. -/
theorem C8_idempotent_witness :
    (Backend.abs_calc pBq stOne).2 = .ok [2] ∧
    (Backend.abs_calc pBq ((Backend.abs_calc pBq stOne).1)).2 = .ok [2] := by
  have hca : pBq.csTotal "A" ((1 : ℚ) / 10) = some 2 := by simp [pBq]
  have hloop : absLoop pBq [(1 : ℚ) / 10]
      [{ compound := "A", area_density := 1, absArr := none }] [0] =
      ([{ compound := "A", area_density := 1, absArr := some [2] }], [2], none) := by
    norm_num [absLoop, computeAbs, hca]
  have hmask : maskSelect [(1 : ℚ) / 10] [2] 100 200 = [2] := by
    norm_num [maskSelect, List.filter_cons]
  have h : (Backend.abs_calc pBq stOne).2 = .ok [2] := by
    unfold Backend.abs_calc
    norm_num [stOne, List.replicate_one, hloop, Backend.edge_jump_calc, buildMask,
      absCalcE1, hmask, chooseSel]
  exact ⟨h, (C8_idempotent pBq stOne [2]).2 h⟩

/-- C3 (amended): when the `[E1, E2]` window selects zero grid points on a
populated model, the backend `edge_jump_calc` does not fail — it falls back to
the full-grid `max?`/`min?` and returns their difference — but the legacy
`XASCalc_core` variant has no such fallback and fails (`.max()` of an empty
selection). -/
theorem C3_empty_window_fallback (s : MaterialAbs) (abst : List ℚ) (e1 e2 : ℚ)
    (hA : s.abs_total = some abst) (hne : abst ≠ [])
    (hsel : maskSelect s.energy abst e1 e2 = []) :
    (∃ aMax aMin, abst.max? = some aMax ∧ abst.min? = some aMin ∧
      Backend.edge_jump_calc s (some e1) (some e2) =
        .ok ({ s with abs_max := some aMax, abs_min := some aMin, edge_jump := some (aMax - aMin) },
          aMax - aMin)) ∧
    XASCalcCore.edge_jump_calc s (some e1) (some e2) =
      .error .emptySelectionError := by
  constructor
  · cases hMax : abst.max? with
    | none => exact absurd (List.max?_eq_none_iff.1 hMax) hne
    | some aMax =>
      cases hMin : abst.min? with
      | none => exact absurd (List.min?_eq_none_iff.1 hMin) hne
      | some aMin =>
        refine ⟨aMax, aMin, rfl, rfl, ?_⟩
        unfold Backend.edge_jump_calc buildMask chooseSel
        simp [hA, hsel, hMax, hMin]
  · unfold XASCalcCore.edge_jump_calc buildMask
    simp [hA, hsel]

/-- Witness for C3 (amended) at a concrete input: the window `[1, 2]` eV
selects nothing from the one-point grid at 100 eV; the backend falls back to
the full grid while the legacy variant errors. -/
theorem C3_empty_window_fallback_witness :
    maskSelect stPop.energy [5] 1 2 = [] ∧
    Backend.edge_jump_calc stPop (some 1) (some 2) =
      .ok ({ stPop with abs_max := some 5, abs_min := some 5, edge_jump := some (5 - 5) }, 5 - 5) ∧
    XASCalcCore.edge_jump_calc stPop (some 1) (some 2) =
      .error .emptySelectionError := by
  have hsel : maskSelect stPop.energy [5] 1 2 = [] := by
    norm_num [maskSelect, stPop, List.filter_cons]
  have h := C3_empty_window_fallback stPop [5] 1 2 rfl (by simp) hsel
  obtain ⟨⟨aMax, aMin, hMax, hMin, hok⟩, herr⟩ := h
  have haMax : aMax = 5 := by simpa using hMax.symm
  have haMin : aMin = 5 := by simpa using hMin.symm
  subst haMax
  subst haMin
  exact ⟨hsel, hok, herr⟩

/-- Counterexample for C3 as stated: on a concrete model with populated
`total_absorption`, the legacy `edge_jump_calc` with a window selecting zero
grid points does fail instead of falling back to the full grid. -/
theorem C3_counterexample :
    stPop.abs_total = some [5] ∧
    XASCalcCore.edge_jump_calc stPop (some 1) (some 2) =
      .error .emptySelectionError := by
  constructor
  · rfl
  · have hsel : maskSelect stPop.energy [5] 1 2 = [] := by
      norm_num [maskSelect, stPop, List.filter_cons]
    unfold XASCalcCore.edge_jump_calc buildMask
    simp [show stPop.abs_total = some [5] from rfl, hsel]

theorem absLoop_failure (p : Provider) (en : List ℚ) (c : CompoundInfo)
    (rest : List CompoundInfo)
    (hc : computeAbs p en c.compound c.area_density = none) :
    ∀ (good : List CompoundInfo) (acc : List ℚ),
      (∀ g ∈ good, (computeAbs p en g.compound g.area_density).isSome) →
      (absLoop p en (good ++ c :: rest) acc).2 =
        (good.foldl (fun a g => List.zipWith (· + ·) a
            ((computeAbs p en g.compound g.area_density).getD [])) acc,
         some c.compound) := by
  intro good
  induction good with
  | nil =>
    intro acc hg
    simp [absLoop, hc]
  | cons g good ih =>
    intro acc hg
    have hgs := hg g (List.mem_cons_self g good)
    obtain ⟨arr, harr⟩ := Option.isSome_iff_exists.1 hgs
    have hrec := ih (List.zipWith (· + ·) acc arr)
      (fun x hx => hg x (List.mem_cons_of_mem g hx))
    simp only [List.cons_append]
    unfold absLoop
    rw [harr]
    dsimp only []
    rw [hrec]
    simp [harr]

/-- C2 (amended): if the cross-section provider fails on some contribution
during `abs_calc`, the call fails with that contribution's formula, but the
call is not atomic — `total_absorption` is left holding the partially-summed
accumulator (zeros plus the contributions processed before the failure), not
its pre-call value; this holds for both variants. -/
theorem C2_partial_sum_on_failure (p : Provider) (s : MaterialAbs)
    (good : List CompoundInfo) (c : CompoundInfo) (rest : List CompoundInfo)
    (hsplit : s.compounds_info = good ++ c :: rest)
    (hgood : ∀ g ∈ good, (computeAbs p s.energy g.compound g.area_density).isSome)
    (hc : computeAbs p s.energy c.compound c.area_density = none) :
    ((XASCalcCore.abs_calc p s).2 = .error (.compositionError c.compound) ∧
     (XASCalcCore.abs_calc p s).1.abs_total =
       some (good.foldl (fun a g => List.zipWith (· + ·) a
           ((computeAbs p s.energy g.compound g.area_density).getD []))
         (List.replicate s.energy.length 0))) ∧
    ((Backend.abs_calc p s).2 = .error (.compositionError c.compound) ∧
     (Backend.abs_calc p s).1.abs_total =
       some (good.foldl (fun a g => List.zipWith (· + ·) a
           ((computeAbs p s.energy g.compound g.area_density).getD []))
         (List.replicate s.energy.length 0))) := by
  have hfail := absLoop_failure p s.energy c rest hc good
    (List.replicate s.energy.length 0) hgood
  rw [← hsplit] at hfail
  have h22 : (absLoop p s.energy s.compounds_info
      (List.replicate s.energy.length 0)).2.2 = some c.compound := by
    rw [hfail]
  have h21 : (absLoop p s.energy s.compounds_info
      (List.replicate s.energy.length 0)).2.1 =
      good.foldl (fun a g => List.zipWith (· + ·) a
          ((computeAbs p s.energy g.compound g.area_density).getD []))
        (List.replicate s.energy.length 0) := by
    rw [hfail]
  have hE : s.compounds_info.isEmpty = false := by
    rw [hsplit]; cases good <;> rfl
  refine ⟨⟨?_, ?_⟩, ?_, ?_⟩
  · unfold XASCalcCore.abs_calc
    dsimp only []
    simp only [h22]
  · unfold XASCalcCore.abs_calc
    dsimp only []
    simp only [h22]
    rw [h21]
  · unfold Backend.abs_calc
    simp only [hE, Bool.false_eq_true, if_false]
    simp only [h22]
  · unfold Backend.abs_calc
    simp only [hE, Bool.false_eq_true, if_false]
    simp only [h22]
    rw [h21]

/-- Witness for C2 (amended) at a concrete input: compound `"A"` succeeds,
compound `"Bq"` fails, the call errors with `"Bq"`, and `total_absorption`
holds the partial sum of the processed prefix. -/
theorem C2_partial_sum_on_failure_witness :
    (Backend.abs_calc pBq stTwo).2 = .error (.compositionError "Bq") ∧
    (Backend.abs_calc pBq stTwo).1.abs_total =
      some (([{ compound := "A", area_density := 1, absArr := none }] : List CompoundInfo).foldl
        (fun a g => List.zipWith (· + ·) a
          ((computeAbs pBq stTwo.energy g.compound g.area_density).getD []))
        (List.replicate stTwo.energy.length 0)) := by
  have h := C2_partial_sum_on_failure pBq stTwo
    [{ compound := "A", area_density := 1, absArr := none }]
    { compound := "Bq", area_density := 2, absArr := none } [] rfl
    (by
      intro g hg
      rw [List.mem_singleton] at hg
      subst hg
      simp [computeAbs, pBq])
    (by simp [computeAbs, pBq, stTwo])
  exact h.2

/-- Counterexample for C2 as stated: on a concrete two-compound model whose
provider fails on the second formula, the failed compute call leaves
`total_absorption` populated with the partial sum `[2]`, although it was
absent before the call — the observable state is not "as if compute had not
run". -/
theorem C2_counterexample :
    stTwo.abs_total = none ∧
    (Backend.abs_calc pBq stTwo).2 = .error (.compositionError "Bq") ∧
    (Backend.abs_calc pBq stTwo).1.abs_total = some [2] ∧
    (XASCalcCore.abs_calc pBq stTwo).1.abs_total = some [2] := by
  have hca : pBq.csTotal "A" ((1 : ℚ) / 10) = some 2 := by simp [pBq]
  have hcbq : pBq.csTotal "Bq" ((1 : ℚ) / 10) = none := by simp [pBq]
  have hloop2 : absLoop pBq [(1 : ℚ) / 10]
      [{ compound := "A", area_density := 1, absArr := none },
       { compound := "Bq", area_density := 2, absArr := none }] [0] =
      ([{ compound := "A", area_density := 1, absArr := some [2] },
        { compound := "Bq", area_density := 2, absArr := none }], [2], some "Bq") := by
    norm_num [absLoop, computeAbs, hca, hcbq]
  refine ⟨rfl, ?_, ?_, ?_⟩
  · unfold Backend.abs_calc
    norm_num [stTwo, List.replicate_one, hloop2]
  · unfold Backend.abs_calc
    norm_num [stTwo, List.replicate_one, hloop2]
  · unfold XASCalcCore.abs_calc
    norm_num [stTwo, List.replicate_one, hloop2]

theorem initModel_pFe_eq : initModel pFe [] "Fe" "K" = .ok mFe := by
  have hz : pFe.symbolToZ "Fe" = some 26 := by simp [pFe]
  have hsh : edgeShell "K" = some K_SHELL := rfl
  have hee : pFe.edgeEnergy 26 K_SHELL = some (7112 / 1000) := by simp [pFe]
  have e1 : ((7112 : ℚ) / 1000) * 1000 = 7112 := by norm_num
  have e2 : max (100 : ℚ) (7112 - 500) = 6612 := by norm_num
  have e3 : (Int.ceil ((7112 : ℚ) + 500 - 6612)).toNat = 1000 := by
    have : ((7112 : ℚ) + 500 - 6612) = (1000 : ℤ) := by norm_num
    rw [this, Int.ceil_intCast]
    rfl
  unfold initModel
  simp only [hz, hsh, hee]
  rw [e1, e2, e3]
  rfl

theorem maskSelect_ne_nil {energy abst : List ℚ} {E1 E2 : ℚ} (i : ℕ)
    (hi : i < energy.length) (hia : i < abst.length) (hle : E1 ≤ E2)
    (h1 : E1 ≤ energy.get ⟨i, hi⟩ * 1000)
    (h2 : energy.get ⟨i, hi⟩ * 1000 ≤ E2) :
    maskSelect energy abst E1 E2 ≠ [] := by
  unfold maskSelect
  simp only [if_neg (not_lt.2 hle)]
  intro hnil
  have hzlen : i < (energy.zip abst).length := by
    rw [List.length_zip]; exact lt_min hi hia
  have hz : (energy.zip abst).get ⟨i, hzlen⟩ =
      (energy.get ⟨i, hi⟩, abst.get ⟨i, hia⟩) := by
    simp [List.get_eq_getElem, List.getElem_zip]
  have hmem : (energy.get ⟨i, hi⟩, abst.get ⟨i, hia⟩) ∈ energy.zip abst := by
    rw [← hz]; exact List.get_mem (energy.zip abst) i hzlen
  have hfil : (energy.get ⟨i, hi⟩, abst.get ⟨i, hia⟩) ∈
      (energy.zip abst).filter
        (fun q => decide (E1 ≤ q.1 * 1000 ∧ q.1 * 1000 ≤ E2)) :=
    List.mem_filter.2 ⟨hmem, by simp only [decide_eq_true_eq]; exact ⟨h1, h2⟩⟩
  have hsnd := List.mem_map_of_mem Prod.snd hfil
  rw [hnil] at hsnd
  exact absurd hsnd (List.not_mem_nil _)

theorem buildMask_error_eq {energy abst : List ℚ} {E1 E2 : Option ℚ}
    {e : CalcError} (h : buildMask energy abst E1 E2 = .error e) :
    e = .maskTypeError := by
  unfold buildMask at h
  cases E1 with
  | none => simp at h
  | some e1 =>
    cases E2 with
    | none => simpa using h.symm
    | some e2 => simp at h

theorem core_edge_jump_calc_error_ne_empty {s : MaterialAbs}
    {E1 E2 : Option ℚ} {e : CalcError}
    (h : XASCalcCore.edge_jump_calc s E1 E2 = .error e) :
    e ≠ .emptyComposition := by
  unfold XASCalcCore.edge_jump_calc at h
  cases hA : s.abs_total with
  | none =>
    simp only [hA] at h
    intro hc
    rw [hc] at h
    simp at h
  | some abst =>
    simp only [hA] at h
    cases hSel : buildMask s.energy abst E1 E2 with
    | error e2 =>
      simp only [hSel] at h
      have hbm := buildMask_error_eq hSel
      intro hc
      rw [hc] at h
      simp only [Except.error.injEq] at h
      rw [hbm] at h
      exact CalcError.noConfusion h
    | ok sel =>
      simp only [hSel] at h
      cases hMax : sel.max? with
      | none =>
        simp only [hMax] at h
        intro hc
        rw [hc] at h
        simp at h
      | some aMax =>
        simp only [hMax] at h
        cases hMin : sel.min? with
        | none =>
          simp only [hMin] at h
          intro hc
          rw [hc] at h
          simp at h
        | some aMin =>
          simp only [hMin] at h
          simp at h

theorem backend_edge_jump_calc_error_ne_empty {s : MaterialAbs}
    {E1 E2 : Option ℚ} {e : CalcError}
    (h : Backend.edge_jump_calc s E1 E2 = .error e) :
    e ≠ .emptyComposition := by
  unfold Backend.edge_jump_calc at h
  cases hA : s.abs_total with
  | none =>
    simp only [hA] at h
    intro hc
    rw [hc] at h
    simp at h
  | some abst =>
    simp only [hA] at h
    cases hSel : buildMask s.energy abst E1 E2 with
    | error e2 =>
      simp only [hSel] at h
      have hbm := buildMask_error_eq hSel
      intro hc
      rw [hc] at h
      simp only [Except.error.injEq] at h
      rw [hbm] at h
      exact CalcError.noConfusion h
    | ok sel =>
      simp only [hSel] at h
      cases hMax : (chooseSel abst sel).max? with
      | none =>
        simp only [hMax] at h
        intro hc
        rw [hc] at h
        simp at h
      | some aMax =>
        simp only [hMax] at h
        cases hMin : (chooseSel abst sel).min? with
        | none =>
          simp only [hMin] at h
          intro hc
          rw [hc] at h
          simp at h
        | some aMin =>
          simp only [hMin] at h
          simp at h

theorem core_edge_jump_calc_ok_of_ne_nil (s : MaterialAbs)
    {abst : List ℚ} {e1 e2 : ℚ} (hA : s.abs_total = some abst)
    (hne : maskSelect s.energy abst e1 e2 ≠ []) :
    ∃ s'' jj, XASCalcCore.edge_jump_calc s (some e1) (some e2) =
      .ok (s'', jj) := by
  unfold XASCalcCore.edge_jump_calc buildMask
  simp only [hA]
  cases hMax : (maskSelect s.energy abst e1 e2).max? with
  | none => exact absurd (List.max?_eq_none_iff.1 hMax) hne
  | some aMax =>
    cases hMin : (maskSelect s.energy abst e1 e2).min? with
    | none => exact absurd (List.min?_eq_none_iff.1 hMin) hne
    | some aMin =>
      refine ⟨{ s with abs_max := some aMax, abs_min := some aMin, edge_jump := some (aMax - aMin) },
        aMax - aMin, ?_⟩
      simp only [hMax, hMin]
      rw [hA]

/-- C1 (amended): the backend `abs_calc` fails with the empty-composition
error exactly when `compounds_info` is empty (and never raises it otherwise),
while the legacy `XASCalc_core` `abs_calc` performs no emptiness check: it can
never produce the empty-composition error, and on an empty composition it
leaves `total_absorption` as the all-zeros accumulator. -/
theorem C1_empty_composition (p : Provider) (s : MaterialAbs) :
    (s.compounds_info = [] →
      (Backend.abs_calc p s).2 = .error .emptyComposition) ∧
    (s.compounds_info ≠ [] →
      (Backend.abs_calc p s).2 ≠ .error .emptyComposition) ∧
    ((XASCalcCore.abs_calc p s).2 ≠ .error .emptyComposition) ∧
    (s.compounds_info = [] → (XASCalcCore.abs_calc p s).1.abs_total =
      some (List.replicate s.energy.length 0)) := by
  refine ⟨?_, ?_, ?_, ?_⟩
  · intro h
    unfold Backend.abs_calc
    simp [h]
  · intro h
    have hE : s.compounds_info.isEmpty = false := by
      cases hcs : s.compounds_info with
      | nil => exact absurd hcs h
      | cons a l => rfl
    unfold Backend.abs_calc
    simp only [hE, Bool.false_eq_true, if_false]
    split
    · intro hc
      simp at hc
    · split
      · rename_i e heqj
        intro hc
        have he : e = CalcError.emptyComposition := by simpa using hc
        exact backend_edge_jump_calc_error_ne_empty heqj he
      · intro hc
        simp at hc
  · unfold XASCalcCore.abs_calc
    dsimp only []
    split
    · intro hc
      simp at hc
    · split
      · rename_i e heqj
        intro hc
        have he : e = CalcError.emptyComposition := by simpa using hc
        exact core_edge_jump_calc_error_ne_empty heqj he
      · intro hc
        simp at hc
  · intro h
    unfold XASCalcCore.abs_calc
    dsimp only []
    simp only [h, absLoop]
    split
    · rfl
    · rename_i pr heqj
      obtain ⟨abst, sel, aMax, aMin, hA, hSel, hMax, hMin, hs', hjj⟩ :=
        core_edge_jump_calc_spec heqj
      rw [hs']

/-- Witness for C1 (amended) at concrete inputs: the backend raises the
empty-composition error on the empty model and not on the one-compound
model. -/
theorem C1_empty_composition_witness :
    (Backend.abs_calc pFe stEmpty).2 = .error .emptyComposition ∧
    (Backend.abs_calc pFe stOne).2 ≠ .error .emptyComposition :=
  ⟨(C1_empty_composition pFe stEmpty).1 rfl,
   (C1_empty_composition pFe stOne).2.1 (by simp [stOne])⟩

/-- Counterexample for C1 as stated: the legacy `MaterialAbs([], "Fe", "K")`
(a model constructed with an empty contributions list) does not fail in
`abs_calc` — the call returns successfully (with an all-zero curve) instead of
raising the empty-composition error. -/
theorem C1_counterexample :
    initModel pFe [] "Fe" "K" = .ok mFe ∧
    (XASCalcCore.abs_calc pFe mFe).2.isOk = true := by
  refine ⟨initModel_pFe_eq, ?_⟩
  have hE1 : absCalcE1 mFe.edge_value = 7062 := by
    norm_num [absCalcE1, mFe]
  have hE2 : mFe.edge_value + 50 = 7162 := by norm_num [mFe]
  have hlen : mFe.energy.length = 1000 := by simp [mFe]
  have hi : (450 : ℕ) < mFe.energy.length := by rw [hlen]; norm_num
  have hia : (450 : ℕ) < (List.replicate mFe.energy.length (0 : ℚ)).length := by
    rw [List.length_replicate]; exact hi
  have hget : mFe.energy.get ⟨450, hi⟩ = ((6612 : ℚ) + 450) / 1000 := by
    simp [mFe, List.get_eq_getElem]
  have hne : maskSelect mFe.energy (List.replicate mFe.energy.length (0 : ℚ))
      (absCalcE1 mFe.edge_value) (mFe.edge_value + 50) ≠ [] := by
    refine maskSelect_ne_nil 450 hi hia ?_ ?_ ?_
    · rw [hE1, hE2]; norm_num
    · rw [hE1, hget]; norm_num
    · rw [hE2, hget]; norm_num
  obtain ⟨s'', jj, hok⟩ := core_edge_jump_calc_ok_of_ne_nil
    { mFe with
        compounds_info := []
        abs_total := some (List.replicate mFe.energy.length 0) }
    rfl hne
  unfold XASCalcCore.abs_calc
  dsimp only []
  simp only [show mFe.compounds_info = ([] : List CompoundInfo) from rfl, absLoop]
  simp only [hok]
  rfl

/-- Counterexample for C5 as stated: with an edge at 80 eV, `edge-50 = 30`
is below 100 eV, yet the lower bound `abs_calc` passes to the edge-jump
window is 30, not 100 — the code only replaces the bound when it is
negative. -/
theorem C5_counterexample :
    absCalcE1 80 = 30 ∧ (80 : ℚ) - 50 < 100 ∧ absCalcE1 80 ≠ 100 := by
  norm_num [absCalcE1]

/-- C5 (amended): inside `abs_calc` the edge-jump window is
`[edge_value - 50, edge_value + 50]` eV with the lower bound replaced by
100 eV only when `edge_value - 50 < 0`; since every grid energy is at least
0.1 keV, the selected grid points nevertheless coincide with those of the
lower bound `max(100, edge_value - 50)`. -/
theorem C5_window_lower_bound :
    (∀ ev : ℚ, (ev - 50 < 0 → absCalcE1 ev = 100) ∧
      (0 ≤ ev - 50 → absCalcE1 ev = ev - 50)) ∧
    (∀ (energy abst : List ℚ) (ev : ℚ), (∀ x ∈ energy, (1 : ℚ) / 10 ≤ x) →
      maskSelect energy abst (absCalcE1 ev) (ev + 50) =
        maskSelect energy abst (max 100 (ev - 50)) (ev + 50)) := by
  constructor
  · intro ev
    constructor
    · intro h
      unfold absCalcE1
      rw [if_pos h]
    · intro h
      unfold absCalcE1
      rw [if_neg (not_lt.2 h)]
  · intro energy abst ev hgrid
    rcases lt_or_le (ev - 50) 0 with hneg | hpos
    · have h1 : absCalcE1 ev = 100 := by unfold absCalcE1; rw [if_pos hneg]
      have h2 : max (100 : ℚ) (ev - 50) = 100 := max_eq_left (by linarith)
      rw [h1, h2]
    · have h1 : absCalcE1 ev = ev - 50 := by
        unfold absCalcE1; rw [if_neg (not_lt.2 hpos)]
      rw [h1]
      rcases le_or_lt 100 (ev - 50) with hbig | hsmall
      · rw [max_eq_right hbig]
      · rw [max_eq_left (le_of_lt hsmall)]
        unfold maskSelect
        have hs1 : ¬ (ev + 50 < ev - 50) := by linarith
        have hs2 : ¬ (ev + 50 < 100) := by linarith
        simp only [if_neg hs1, if_neg hs2]
        refine congrArg (List.map Prod.snd) (List.filter_congr ?_)
        intro q hq
        obtain ⟨hq1, _⟩ := List.of_mem_zip hq
        have hx : (100 : ℚ) ≤ q.1 * 1000 := by
          have := hgrid q.1 hq1
          linarith
        refine decide_eq_decide.2 ?_
        constructor
        · intro hc
          exact ⟨hx, hc.2⟩
        · intro hc
          exact ⟨by linarith, hc.2⟩

/-- Witness for C5 (amended) at concrete inputs: a negative shifted bound is
replaced by 100, a large edge keeps `edge-50`, and on a concrete grid the two
lower-bound conventions select the same points. -/
theorem C5_window_lower_bound_witness :
    absCalcE1 (-10) = 100 ∧ absCalcE1 200 = 200 - 50 ∧
    maskSelect [(1 : ℚ) / 10] [5] (absCalcE1 80) (80 + 50) =
      maskSelect [(1 : ℚ) / 10] [5] (max 100 (80 - 50)) (80 + 50) := by
  refine ⟨(C5_window_lower_bound.1 (-10)).1 (by norm_num),
    (C5_window_lower_bound.1 200).2 (by norm_num),
    C5_window_lower_bound.2 [(1 : ℚ) / 10] [5] 80 ?_⟩
  intro x hx
  rw [List.mem_singleton] at hx
  subst hx
  norm_num

/-- C6: for a resolvable element, an edge kind among K/L1/L2/L3, and a
positive edge energy, construction succeeds and the energy grid is non-empty,
strictly increasing, spaced 0.001 keV (1 eV) apart, starts at
`max(100, edge_value - 500)` eV (hence at least 0.1 keV), and stays strictly
below `edge_value + 500` eV. -/
theorem C6_grid_construction (p : Provider) (cs : List CompoundInfo)
    (el ed : String) (Z : ℕ) (e : ℚ)
    (hZ : p.symbolToZ el = some Z)
    (hed : ed = "K" ∨ ed = "L1" ∨ ed = "L2" ∨ ed = "L3")
    (he : p.edgeEnergy Z ((edgeShell ed).getD 0) = some e)
    (hpos : 0 < e) :
    ∃ s, initModel p cs el ed = .ok s ∧
      s.edge_value = e * 1000 ∧
      s.energy ≠ [] ∧
      (∀ i j (hi : i < s.energy.length) (hj : j < s.energy.length),
        i < j → s.energy.get ⟨i, hi⟩ < s.energy.get ⟨j, hj⟩) ∧
      (∀ i (h1 : i + 1 < s.energy.length) (h0 : i < s.energy.length),
        s.energy.get ⟨i + 1, h1⟩ - s.energy.get ⟨i, h0⟩ = 1 / 1000) ∧
      (∀ h0 : 0 < s.energy.length,
        s.energy.get ⟨0, h0⟩ = max 100 (e * 1000 - 500) / 1000 ∧
        1 / 10 ≤ s.energy.get ⟨0, h0⟩) ∧
      (∀ x ∈ s.energy, x * 1000 < e * 1000 + 500) := by
  have hsh0 : edgeShell ed = some ((edgeShell ed).getD 0) := by
    rcases hed with h | h | h | h <;> subst h <;> rfl
  obtain ⟨sh, hsh⟩ : ∃ sh, edgeShell ed = some sh := ⟨_, hsh0⟩
  have he2 : p.edgeEnergy Z sh = some e := by
    rw [hsh] at he
    simpa using he
  have hlo1 : (100 : ℚ) ≤ max 100 (e * 1000 - 500) := le_max_left _ _
  have hlo2 : max (100 : ℚ) (e * 1000 - 500) ≤ e * 1000 + 400 :=
    max_le (by linarith) (by linarith)
  have hceil : (0 : ℤ) < Int.ceil (e * 1000 + 500 - max 100 (e * 1000 - 500)) :=
    Int.ceil_pos.2 (by linarith)
  have hn : 0 < (Int.ceil (e * 1000 + 500 - max 100 (e * 1000 - 500))).toNat := by
    omega
  refine ⟨{ compounds_info := cs
            element := el
            edge := ed
            edge_value := e * 1000
            energy := (List.range (Int.ceil (e * 1000 + 500 -
              max 100 (e * 1000 - 500))).toNat).map
                (fun i : ℕ => (max 100 (e * 1000 - 500) + i) / 1000)
            abs_total := none
            abs_max := none
            abs_min := none
            edge_jump := none
            transmitted_base := none }, ?_, ?_, ?_, ?_, ?_, ?_, ?_⟩
  · unfold initModel
    simp only [hZ]
    simp only [hsh]
    simp only [he2]
  · rfl
  · dsimp only []
    refine List.length_pos.1 ?_
    simp only [List.length_map, List.length_range]
    exact hn
  · intro i j hi hj hij
    dsimp only [] at hi hj ⊢
    simp only [List.get_eq_getElem, List.getElem_map, List.getElem_range]
    have hij2 : (i : ℚ) < j := by exact_mod_cast hij
    have h1000 : (0 : ℚ) < 1000 := by norm_num
    rw [div_lt_div_iff₀ h1000 h1000]
    linarith
  · intro i h1 h0
    dsimp only [] at h1 h0 ⊢
    simp only [List.get_eq_getElem, List.getElem_map, List.getElem_range]
    push_cast
    ring
  · intro h0
    dsimp only [] at h0 ⊢
    simp only [List.get_eq_getElem, List.getElem_map, List.getElem_range]
    refine ⟨by norm_num, ?_⟩
    push_cast
    linarith
  · intro x hx
    dsimp only [] at hx
    simp only [List.mem_map, List.mem_range] at hx
    obtain ⟨i, hi, rfl⟩ := hx
    rw [div_mul_cancel₀ _ (by norm_num : (1000 : ℚ) ≠ 0)]
    have hi2 : (i : ℤ) < Int.ceil (e * 1000 + 500 - max 100 (e * 1000 - 500)) :=
      Int.lt_toNat.1 hi
    have hi2b : (i : ℤ) + 1 ≤
        Int.ceil (e * 1000 + 500 - max 100 (e * 1000 - 500)) := hi2
    have hi3 : (i : ℚ) + 1 ≤
        ((Int.ceil (e * 1000 + 500 - max 100 (e * 1000 - 500))) : ℚ) := by
      exact_mod_cast hi2b
    have hc1 : ((Int.ceil (e * 1000 + 500 - max 100 (e * 1000 - 500))) : ℚ) <
        (e * 1000 + 500 - max 100 (e * 1000 - 500)) + 1 :=
      Int.ceil_lt_add_one _
    linarith

/-- Witness for C6 at a concrete input: Fe with the K edge at 7.112 keV
constructs successfully and its grid is non-empty. -/
theorem C6_grid_construction_witness :
    initModel pFe [] "Fe" "K" = .ok mFe ∧ mFe.energy ≠ [] := by
  obtain ⟨s, h1, _, h3, _, _, _, _⟩ := C6_grid_construction pFe [] "Fe" "K" 26
    (7112 / 1000) (by simp [pFe]) (Or.inl rfl)
    (by simp [pFe, edgeShell, K_SHELL]) (by norm_num)
  have hs : s = mFe := by
    have h2 := initModel_pFe_eq
    rw [h1] at h2
    exact Except.ok.inj h2
  subst hs
  exact ⟨initModel_pFe_eq, h3⟩
